import Mathlib

/-!
Verification of the raytracingcallable Vulkan example
(examples/raytracingcallable/raytracingcallable.cpp).

The example is a thin, almost straight-line sequence of Vulkan API calls.
We embed it shallowly: each function of the example is translated into

* a list of call events (which function is called, whether the call returns
  a VkResult, whether the call site is wrapped in VK_CHECK_RESULT), so that
  error-handling and call-sequence properties become properties of lists;
* pure data definitions for the host-side records the example fills in
  (transform matrices, build-range records, shader stages and groups,
  shader-binding-table byte copies);
* a small state-passing model of prepare, recording which previously built
  object each later step reads.

Runtime conditions that the code branches on are parameters of the
corresponding trace function: the accelerationStructureHostCommands feature
bit, the resized flag, the paused flag, camera.updated, and the number of
per-frame objects (swapChain.imageCount).
-/

namespace RaytracingCallable

/-- Number of ray traced objects (source: uint32_t objectCount = 3). -/
def objectCount : Nat := 3

/-- One call statement executed by the example, as written in the source:
the callee, the object it mainly targets (empty when irrelevant), whether
the call returns a VkResult at this call site, whether the call site is
wrapped in VK_CHECK_RESULT, whether it is a graphics-API call (host memory
operations such as memcpy are not), and an auxiliary count argument
(fence count or shader-handle count where the call has one). -/
structure Event where
  callee : String
  target : String
  returnsResult : Bool
  checked : Bool
  api : Bool
  arg : Nat
deriving DecidableEq

/-- Call site returning VkResult, wrapped in VK_CHECK_RESULT. -/
def checkedCall (n : String) : Event := ⟨n, "", true, true, true, 0⟩

/-- Call site returning VkResult whose result is discarded (no VK_CHECK_RESULT). -/
def uncheckedResultCall (n : String) : Event := ⟨n, "", true, false, true, 0⟩

/-- Call site of a void function (or a framework helper checked internally). -/
def voidCall (n : String) : Event := ⟨n, "", false, false, true, 0⟩

/-- Host-side operation that is not a graphics-API call (assignment, memcpy). -/
def hostOp (n : String) : Event := ⟨n, "", false, false, false, 0⟩

/-- Body of a loop over the per-frame objects (or any other loop), executed
once per iteration: n iterations of the block, concatenated in order. -/
def loopCalls (n : Nat) (blk : List Event) : List Event :=
  match n with
  | 0 => []
  | k + 1 => blk ++ loopCalls k blk

/-- Call sequence of createBottomLevelAccelerationStructure, lines 89-232.
The hostBuild parameter is accelerationStructureFeatures.accelerationStructureHostCommands:
when the implementation supports host builds, the build is issued through
vkBuildAccelerationStructuresKHR (whose VkResult is discarded), otherwise it
is recorded into a one-time command buffer via vkCmdBuildAccelerationStructuresKHR. -/
def createBottomLevelAccelerationStructureEvents (hostBuild : Bool) : List Event :=
  [ checkedCall "vulkanDevice.createBuffer",      -- transform buffer
    checkedCall "vulkanDevice.createBuffer",      -- vertex buffer
    checkedCall "vulkanDevice.createBuffer",      -- index buffer
    voidCall "getBufferDeviceAddress",
    voidCall "getBufferDeviceAddress",
    voidCall "getBufferDeviceAddress",
    voidCall "vkGetAccelerationStructureBuildSizesKHR",
    voidCall "createAccelerationStructure",
    voidCall "createScratchBuffer" ]
  ++ (if hostBuild then
        [ uncheckedResultCall "vkBuildAccelerationStructuresKHR" ]
      else
        [ voidCall "vulkanDevice.createCommandBuffer",
          voidCall "vkCmdBuildAccelerationStructuresKHR",
          voidCall "vulkanDevice.flushCommandBuffer" ])
  ++ [ voidCall "deleteScratchBuffer" ]

/-- Call sequence of createTopLevelAccelerationStructure, lines 237-333,
with the same host-build/device-build branch as the bottom level build. -/
def createTopLevelAccelerationStructureEvents (hostBuild : Bool) : List Event :=
  [ checkedCall "vulkanDevice.createBuffer",      -- instances buffer
    voidCall "getBufferDeviceAddress",
    voidCall "vkGetAccelerationStructureBuildSizesKHR",
    voidCall "createAccelerationStructure",
    voidCall "createScratchBuffer" ]
  ++ (if hostBuild then
        [ uncheckedResultCall "vkBuildAccelerationStructuresKHR" ]
      else
        [ voidCall "vulkanDevice.createCommandBuffer",
          voidCall "vkCmdBuildAccelerationStructuresKHR",
          voidCall "vulkanDevice.flushCommandBuffer" ])
  ++ [ voidCall "deleteScratchBuffer",
       voidCall "instancesBuffer.destroy" ]

/-- Call sequence of createShaderBindingTables, lines 353-373: query all
group handles, create the four tables (the arg field records the handle
count passed to createShaderBindingTable), then copy the handles. -/
def createShaderBindingTablesEvents : List Event :=
  [ checkedCall "vkGetRayTracingShaderGroupHandlesKHR",
    ⟨"createShaderBindingTable", "shaderBindingTables.raygen", false, false, true, 1⟩,
    ⟨"createShaderBindingTable", "shaderBindingTables.miss", false, false, true, 1⟩,
    ⟨"createShaderBindingTable", "shaderBindingTables.hit", false, false, true, 1⟩,
    ⟨"createShaderBindingTable", "shaderBindingTables.callable", false, false, true, objectCount⟩,
    hostOp "memcpy",
    hostOp "memcpy",
    hostOp "memcpy",
    hostOp "memcpy" ]

/-- Call sequence of createDescriptorSets, lines 378-425: one pool, then per
frame one allocation and one batched descriptor update. -/
def createDescriptorSetsEvents (frameCount : Nat) : List Event :=
  checkedCall "vkCreateDescriptorPool"
  :: loopCalls frameCount
      [ checkedCall "vkAllocateDescriptorSets",
        voidCall "vkUpdateDescriptorSets" ]

/-- Call sequence of createRayTracingPipeline, lines 430-509: layouts, the
three fixed shader stages, one loadShader per callable object, then the
pipeline creation. -/
def createRayTracingPipelineEvents : List Event :=
  [ checkedCall "vkCreateDescriptorSetLayout",
    checkedCall "vkCreatePipelineLayout",
    voidCall "loadShader",        -- raygen.rgen.spv
    voidCall "loadShader",        -- miss.rmiss.spv
    voidCall "loadShader" ]       -- closesthit.rchit.spv
  ++ loopCalls objectCount [ voidCall "loadShader" ]   -- callable(i+1).rcall.spv
  ++ [ checkedCall "vkCreateRayTracingPipelinesKHR" ]

/-- Call sequence of prepare, lines 528-553: base-class prepare, per-frame
objects (frame objects, storage image, uniform buffer creation and map),
then the acceleration structures, pipeline, shader binding tables,
descriptor sets, command buffers, and finally prepared = true. -/
def prepareEvents (hostBuild : Bool) (frameCount : Nat) : List Event :=
  voidCall "VulkanRaytracingSample.prepare"
  :: loopCalls frameCount
      [ voidCall "createFrameObjects",
        voidCall "createStorageImage",
        checkedCall "vulkanDevice.createBuffer",
        checkedCall "frame.ubo.map" ]
  ++ createBottomLevelAccelerationStructureEvents hostBuild
  ++ createTopLevelAccelerationStructureEvents hostBuild
  ++ createRayTracingPipelineEvents
  ++ createShaderBindingTablesEvents
  ++ createDescriptorSetsEvents frameCount
  ++ [ voidCall "buildCommandBuffers",
       hostOp "prepared = true" ]

/-- Per-frame block of the window-resize branch of draw, lines 561-568:
recreate the storage image and update its descriptor. -/
def resizeBlock : List Event :=
  [ voidCall "createStorageImage",
    voidCall "vkUpdateDescriptorSets" ]

/-- Resize branch of draw, lines 558-569: on resize, wait for the device to
idle (VkResult discarded) and rebuild every frame object storage image. -/
def drawResizePart (resized : Bool) (frameCount : Nat) : List Event :=
  if resized then
    uncheckedResultCall "vkDeviceWaitIdle" :: loopCalls frameCount resizeBlock
  else []

/-- Event waiting on the current frame render-complete fence, line 575;
the arg field is the fenceCount argument. -/
def fenceWaitEvent : Event :=
  ⟨"vkWaitForFences", "currentFrame.renderCompleteFence", true, true, true, 1⟩

/-- Event resetting the current frame render-complete fence, line 576. -/
def fenceResetEvent : Event :=
  ⟨"vkResetFences", "currentFrame.renderCompleteFence", true, true, true, 1⟩

/-- Fixed head of draw after the resize branch: prepareFrame, fence wait,
fence reset (lines 573-576). -/
def drawPrePart : List Event :=
  [ voidCall "VulkanExampleBase.prepareFrame",
    fenceWaitEvent,
    fenceResetEvent ]

/-- Uniform update branch of draw, lines 578-582: executed when the
application is not paused or the camera moved; both statements are host
memory operations, not graphics-API calls. -/
def drawUniformPart (paused cameraUpdated : Bool) : List Event :=
  if !paused || cameraUpdated then
    [ hostOp "uniformData update",
      hostOp "memcpy uniformData to frame.ubo.mapped" ]
  else []

/-- Modelled from the spec: VulkanExampleBase.submitFrame (framework code
not under src) submits the single command buffer recorded for the frame to
the queue; the spec states the program submits one command buffer per frame.
The arg field is the number of submitted command buffers. -/
def submitFrameEvents : List Event :=
  [ ⟨"vkQueueSubmit", "currentFrame.commandBuffer", true, true, true, 1⟩ ]

/-- Command recording and submission tail of draw, lines 585-656: record the
single command buffer (trace rays, copy to the swap chain image with layout
transitions) and hand it to the framework submitFrame. -/
def drawCommandPart : List Event :=
  [ checkedCall "vkBeginCommandBuffer",
    voidCall "vkCmdBindPipeline",
    voidCall "vkCmdBindDescriptorSets",
    voidCall "vkCmdTraceRaysKHR",
    voidCall "setImageLayout",
    voidCall "setImageLayout",
    voidCall "vkCmdCopyImage",
    voidCall "setImageLayout",
    voidCall "setImageLayout",
    checkedCall "vkEndCommandBuffer" ]
  ++ submitFrameEvents

/-- Complete call sequence of draw, lines 555-657, as a function of the
runtime conditions it branches on. -/
def drawEvents (resized paused cameraUpdated : Bool) (frameCount : Nat) : List Event :=
  drawResizePart resized frameCount
  ++ drawPrePart
  ++ drawUniformPart paused cameraUpdated
  ++ drawCommandPart

/-- Call site whose non-success VkResult aborts: either the call returns no
VkResult at all, or it is wrapped in VK_CHECK_RESULT. -/
def resultChecked (e : Event) : Bool := !e.returnsResult || e.checked

/-- Modelled from the spec: the VK_CHECK_RESULT macro (framework code not
under src) aborts the program on any non-success (non-zero) VkResult and
continues on success, with no retry. none models the abort. -/
def vkCheckResult (res : Int) : Option Unit :=
  if res = 0 then some () else none

/-- Modelled from the spec: vks.tools.alignedSize (framework code not under
src) rounds value up to the next multiple of alignment, as the spec says
(shaderGroupHandleSize rounded up to shaderGroupHandleAlignment). -/
def alignedSize (value alignment : Nat) : Nat :=
  ((value + alignment - 1) / alignment) * alignment

/-- Host-visible contents of the four shader binding tables, as byte lists. -/
structure ShaderBindingTablesData where
  raygen : List Nat
  miss : List Nat
  hit : List Nat
  callable : List Nat
deriving DecidableEq

/-- Handle copies of createShaderBindingTables, lines 354-372: with
handleSize = shaderGroupHandleSize and handleSizeAligned its aligned size,
memcpy handleSize bytes from offsets 0, handleSizeAligned and
handleSizeAligned * 2 into the raygen, miss and hit tables, and
handleSize * 3 bytes from offset handleSizeAligned * 3 into the callable
table. memcpy of len bytes from source offset off is take len after drop off. -/
def copyShaderGroupHandles (handleSize alignment : Nat) (shaderHandleStorage : List Nat) :
    ShaderBindingTablesData :=
  let handleSizeAligned := alignedSize handleSize alignment
  { raygen := shaderHandleStorage.take handleSize
  , miss := (shaderHandleStorage.drop handleSizeAligned).take handleSize
  , hit := (shaderHandleStorage.drop (handleSizeAligned * 2)).take handleSize
  , callable := (shaderHandleStorage.drop (handleSizeAligned * 3)).take (handleSize * 3) }

/-- Modelled from the spec: createShaderBindingTable (framework code not
under src) creates a table sized for the given number of handle entries,
each entry a slot of the aligned handle size. -/
def shaderBindingTableSize (handleSize alignment entries : Nat) : Nat :=
  entries * alignedSize handleSize alignment

/-- VkTransformMatrixKHR: a 3x4 row-major matrix. The example only ever
stores small whole numbers in it, which float arithmetic represents exactly,
so entries are embedded as integers. -/
structure TransformMatrix where
  m00 : Int
  m01 : Int
  m02 : Int
  m03 : Int
  m10 : Int
  m11 : Int
  m12 : Int
  m13 : Int
  m20 : Int
  m21 : Int
  m22 : Int
  m23 : Int
deriving DecidableEq

/-- Bottom-level transform matrices, lines 106-113: for each object i the
identity rotation with x translation (float)i * 3.0f - 3.0f and zero y and
z translation (all values exact in float). -/
def transformMatrices : List TransformMatrix :=
  (List.range objectCount).map fun i =>
    ⟨1, 0, 0, (i : Int) * 3 - 3,
     0, 1, 0, 0,
     0, 0, 1, 0⟩

/-- Rotation part of a transform matrix is the identity. -/
def isIdentityRotation (m : TransformMatrix) : Bool :=
  m.m00 == 1 && m.m01 == 0 && m.m02 == 0 &&
  m.m10 == 0 && m.m11 == 1 && m.m12 == 0 &&
  m.m20 == 0 && m.m21 == 0 && m.m22 == 1

/-- VkAccelerationStructureGeometryKHR triangle data as filled in by the
bottom level build, lines 152-166 (fields the example sets). -/
structure ASGeometry where
  opaqueFlag : Bool
  isTriangles : Bool
  maxVertex : Nat
  vertexStride : Nat
deriving DecidableEq

/-- Geometry list of createBottomLevelAccelerationStructure, lines 150-166:
one opaque triangle geometry per object, maxVertex = 3,
vertexStride = sizeof(Vertex) = 12. -/
def accelerationStructureGeometries : List ASGeometry :=
  (List.range objectCount).map fun _ => ⟨true, true, 3, 12⟩

/-- VkAccelerationStructureBuildRangeInfoKHR as filled in by the bottom
level build, lines 198-206. -/
structure BuildRangeInfo where
  primitiveCount : Nat
  primitiveOffset : Nat
  firstVertex : Nat
  transformOffset : Nat
deriving DecidableEq

/-- Build-range records of createBottomLevelAccelerationStructure,
lines 198-206: one triangle per object, transformOffset
i * sizeof(VkTransformMatrixKHR) = i * 48. -/
def accelerationStructureBuildRangeInfos (n : Nat) : List BuildRangeInfo :=
  (List.range n).map fun i => ⟨1, 0, 0, i * 48⟩

/-- Indices of the build-range records whose addresses line 207 takes:
the fixed literal list of entries 0, 1 and 2. -/
def fixedRangePointerIndices : List Nat := [0, 1, 2]

/-- Shader stage kinds used by the pipeline. -/
inductive StageKind
  | raygen
  | miss
  | closesthit
  | callable
deriving DecidableEq

/-- One entry of the shaderStages vector: the file the SPIR-V binary is
loaded from and its stage. -/
structure ShaderStage where
  fileName : String
  kind : StageKind
deriving DecidableEq

/-- VkRayTracingShaderGroupCreateInfoKHR group type. -/
inductive GroupType
  | general
  | trianglesHitGroup
deriving DecidableEq

/-- One entry of the shaderGroups vector; none models VK_SHADER_UNUSED_KHR. -/
structure ShaderGroupInfo where
  type : GroupType
  generalShader : Option Nat
  closestHitShader : Option Nat
  anyHitShader : Option Nat
  intersectionShader : Option Nat
deriving DecidableEq

/-- Shader stage and group construction of createRayTracingPipeline,
lines 454-499, with base the value of getShadersPath(): push the raygen,
miss and closest hit stages each with its group, then one callable stage
and group per object, the file name built as
base + "raytracingcallable/callable" + to_string(i + 1) + ".rcall.spv";
every general group references the stage just pushed
(shaderStages.size() - 1). -/
def createRayTracingPipelineStagesGroups (base : String) :
    List ShaderStage × List ShaderGroupInfo :=
  let stages0 : List ShaderStage := []
  let groups0 : List ShaderGroupInfo := []
  -- Ray generation shader group
  let stages1 := stages0 ++ [⟨base ++ "raytracingcallable/raygen.rgen.spv", StageKind.raygen⟩]
  let groups1 := groups0 ++ [⟨GroupType.general, some (stages1.length - 1), none, none, none⟩]
  -- Miss shader group
  let stages2 := stages1 ++ [⟨base ++ "raytracingcallable/miss.rmiss.spv", StageKind.miss⟩]
  let groups2 := groups1 ++ [⟨GroupType.general, some (stages2.length - 1), none, none, none⟩]
  -- Closest hit shader group
  let stages3 := stages2 ++ [⟨base ++ "raytracingcallable/closesthit.rchit.spv", StageKind.closesthit⟩]
  let groups3 := groups2 ++ [⟨GroupType.trianglesHitGroup, none, some (stages3.length - 1), none, none⟩]
  -- Callable shader groups, one per object
  (List.range objectCount).foldl
    (fun acc i =>
      let stages4 := acc.1 ++
        [⟨((base ++ "raytracingcallable/callable") ++ toString (i + 1)) ++ ".rcall.spv",
          StageKind.callable⟩]
      (stages4, acc.2 ++ [⟨GroupType.general, some (stages4.length - 1), none, none, none⟩]))
    (stages3, groups3)

/-- Kind of the stage a general group references, looked up in the stage
vector; none when the group references no general stage. -/
def groupStageKind (stages : List ShaderStage) (g : ShaderGroupInfo) : Option StageKind :=
  g.generalShader.bind fun i => (stages[i]?).map ShaderStage.kind

/-- Group is a general group referencing a callable stage. -/
def isCallableGroup (stages : List ShaderStage) (g : ShaderGroupInfo) : Bool :=
  g.type == GroupType.general && groupStageKind stages g == some StageKind.callable

/-- State threaded through prepare: for every object built by an earlier
step, the value later steps read from it. Handles and device addresses are
opaque driver-assigned values, so they are parameters below; none means
the producing step has not run. -/
structure PrepareState where
  blasDeviceAddress : Option Nat
  tlasHandle : Option Nat
  instanceReference : Option Nat
  pipelineGroupCount : Option Nat
  sbtQueriedGroupCount : Option Nat
  descriptorTlas : Option Nat
  frameObjectsReady : Bool
  commandBuffersBuilt : Bool
  prepared : Bool
deriving DecidableEq

/-- State before prepare runs. -/
def initialPrepareState : PrepareState :=
  ⟨none, none, none, none, none, none, false, false, false⟩

/-- Effect of createBottomLevelAccelerationStructure on the threaded state:
it publishes bottomLevelAS.deviceAddress. -/
def runCreateBottomLevelAS (blasAddr : Nat) (s : PrepareState) : PrepareState :=
  { s with blasDeviceAddress := some blasAddr }

/-- Effect of createTopLevelAccelerationStructure: line 250 stores the
current bottomLevelAS.deviceAddress into
instance.accelerationStructureReference, and the build publishes
topLevelAS.handle. -/
def runCreateTopLevelAS (tlasHandle : Nat) (s : PrepareState) : PrepareState :=
  { s with instanceReference := s.blasDeviceAddress, tlasHandle := some tlasHandle }

/-- Effect of createRayTracingPipeline: the created pipeline holds the
shaderGroups vector (its group count is what the SBT step later queries). -/
def runCreateRayTracingPipeline (s : PrepareState) : PrepareState :=
  { s with pipelineGroupCount := some (createRayTracingPipelineStagesGroups "").2.length }

/-- Effect of createShaderBindingTables: line 360 queries groupCount =
shaderGroups.size() handles from the pipeline created before. -/
def runCreateShaderBindingTables (s : PrepareState) : PrepareState :=
  { s with sbtQueriedGroupCount := s.pipelineGroupCount }

/-- Effect of createDescriptorSets: line 396 writes the current
topLevelAS.handle into every frame descriptor set. -/
def runCreateDescriptorSets (s : PrepareState) : PrepareState :=
  { s with descriptorTlas := s.tlasHandle }

/-- Successive states of prepare, lines 528-553, in the exact order of the
source: per-frame objects, bottom level AS, top level AS, pipeline, shader
binding tables, descriptor sets, command buffers, prepared = true. -/
def prepareStates (blasAddr tlasHandle : Nat) : List PrepareState :=
  let s0 := initialPrepareState
  let s1 := { s0 with frameObjectsReady := true }
  let s2 := runCreateBottomLevelAS blasAddr s1
  let s3 := runCreateTopLevelAS tlasHandle s2
  let s4 := runCreateRayTracingPipeline s3
  let s5 := runCreateShaderBindingTables s4
  let s6 := runCreateDescriptorSets s5
  let s7 := { s6 with commandBuffersBuilt := true }
  let s8 := { s7 with prepared := true }
  [s0, s1, s2, s3, s4, s5, s6, s7, s8]

/-- Final state of prepare. -/
def runPrepare (blasAddr tlasHandle : Nat) : PrepareState :=
  (prepareStates blasAddr tlasHandle).getLast (by simp [prepareStates])

/-- Uniform data and the mapped per-frame uniform buffer, abstracted over
the matrix contents. -/
structure UniformBufferState (α : Type) where
  uniformData : α
  uboMapped : α
deriving DecidableEq

/-- Uniform update step of draw, lines 578-582: when the application is not
paused or the camera was updated, recompute uniformData (the inverse view
and projection matrices, abstracted as invMatrices) and memcpy it into the
current frame mapped uniform buffer; otherwise leave both unchanged. -/
def updateUniformBuffers (paused cameraUpdated : Bool) (invMatrices : α)
    (s : UniformBufferState α) : UniformBufferState α :=
  if !paused || cameraUpdated then
    { uniformData := invMatrices, uboMapped := invMatrices }
  else s

/-- Call site whose non-success result aborts, except for the two call
sites whose VkResult the example discards. -/
def checkedExceptKnown (e : Event) : Bool :=
  resultChecked e || e.callee == "vkBuildAccelerationStructuresKHR" ||
    e.callee == "vkDeviceWaitIdle"

/-! Helper lemmas about the loop and trace combinators. -/

theorem all_loopCalls (p : Event → Bool) (blk : List Event) (h : blk.all p = true) :
    ∀ n, (loopCalls n blk).all p = true := by
  intro n
  induction n with
  | zero => rfl
  | succ k ih => simp [loopCalls, List.all_append, h, ih]

theorem filter_loopCalls_nil (p : Event → Bool) (blk : List Event)
    (h : blk.filter p = []) : ∀ n, (loopCalls n blk).filter p = [] := by
  intro n
  induction n with
  | zero => rfl
  | succ k ih => simp [loopCalls, List.filter_append, h, ih]

theorem filter_drawResizePart_nil (p : Event → Bool)
    (h1 : p (uncheckedResultCall "vkDeviceWaitIdle") = false)
    (h2 : resizeBlock.filter p = []) :
    ∀ r n, (drawResizePart r n).filter p = [] := by
  intro r n
  cases r
  · rfl
  · simp [drawResizePart, List.filter_cons, h1,
      filter_loopCalls_nil p resizeBlock h2 n]

theorem filter_drawUniformPart_nil (p : Event → Bool)
    (h1 : p (hostOp "uniformData update") = false)
    (h2 : p (hostOp "memcpy uniformData to frame.ubo.mapped") = false) :
    ∀ pa u, (drawUniformPart pa u).filter p = [] := by
  intro pa u
  cases pa <;> cases u <;> simp [drawUniformPart, List.filter_cons, h1, h2]

theorem le_alignedSize (v a : Nat) (ha : 0 < a) : v ≤ alignedSize v a := by
  unfold alignedSize
  rw [Nat.mul_comm]
  have hd := Nat.div_add_mod (v + a - 1) a
  have hm : (v + a - 1) % a < a := Nat.mod_lt _ ha
  generalize hr : (v + a - 1) % a = r at hd hm
  generalize hq : a * ((v + a - 1) / a) = m at hd ⊢
  omega

theorem alignedSize_lt (v a : Nat) (ha : 0 < a) : alignedSize v a < v + a := by
  unfold alignedSize
  rw [Nat.mul_comm]
  have hd := Nat.div_add_mod (v + a - 1) a
  have hm : (v + a - 1) % a < a := Nat.mod_lt _ ha
  generalize hr : (v + a - 1) % a = r at hd hm
  generalize hq : a * ((v + a - 1) / a) = m at hd ⊢
  omega

theorem alignedSize_mod (v a : Nat) : alignedSize v a % a = 0 :=
  Nat.mul_mod_left _ _

theorem stagesGroups_eval (base : String) :
    createRayTracingPipelineStagesGroups base =
      ([⟨base ++ "raytracingcallable/raygen.rgen.spv", StageKind.raygen⟩,
        ⟨base ++ "raytracingcallable/miss.rmiss.spv", StageKind.miss⟩,
        ⟨base ++ "raytracingcallable/closesthit.rchit.spv", StageKind.closesthit⟩,
        ⟨((base ++ "raytracingcallable/callable") ++ "1") ++ ".rcall.spv", StageKind.callable⟩,
        ⟨((base ++ "raytracingcallable/callable") ++ "2") ++ ".rcall.spv", StageKind.callable⟩,
        ⟨((base ++ "raytracingcallable/callable") ++ "3") ++ ".rcall.spv", StageKind.callable⟩],
       [⟨GroupType.general, some 0, none, none, none⟩,
        ⟨GroupType.general, some 1, none, none, none⟩,
        ⟨GroupType.trianglesHitGroup, none, some 2, none, none⟩,
        ⟨GroupType.general, some 3, none, none, none⟩,
        ⟨GroupType.general, some 4, none, none, none⟩,
        ⟨GroupType.general, some 5, none, none, none⟩]) := rfl

/-- C2: the bottom level acceleration structure holds exactly objectCount
triangle geometries, the pipeline appends exactly objectCount callable
shader groups after the raygen, miss and hit groups, the callable shader
binding table is created with exactly objectCount handle entries, and
objectCount is 3. -/
theorem one_callable_per_geometry_counts (base : String) :
    accelerationStructureGeometries.length = objectCount ∧
    accelerationStructureGeometries.all (fun g => g.isTriangles) = true ∧
    ((createRayTracingPipelineStagesGroups base).2.take 3).map ShaderGroupInfo.type =
      [GroupType.general, GroupType.general, GroupType.trianglesHitGroup] ∧
    (((createRayTracingPipelineStagesGroups base).2)[0]?).map
      (groupStageKind (createRayTracingPipelineStagesGroups base).1) =
        some (some StageKind.raygen) ∧
    (((createRayTracingPipelineStagesGroups base).2)[1]?).map
      (groupStageKind (createRayTracingPipelineStagesGroups base).1) =
        some (some StageKind.miss) ∧
    ((createRayTracingPipelineStagesGroups base).2.drop 3).length = objectCount ∧
    ((createRayTracingPipelineStagesGroups base).2.drop 3).all
      (isCallableGroup (createRayTracingPipelineStagesGroups base).1) = true ∧
    (createShaderBindingTablesEvents.filter
      (fun e => e.target == "shaderBindingTables.callable")).map Event.arg = [objectCount] ∧
    objectCount = 3 := by
  rw [stagesGroups_eval]
  exact ⟨rfl, rfl, rfl, rfl, rfl, rfl, rfl, by decide, rfl⟩

/-- C6: prepare performs setup in dependency order: frame objects, then the
bottom level AS, then the top level AS (whose instance records the bottom
level device address published by the preceding step), then the pipeline,
then the shader binding tables (which query the handles of all six groups
of the already-created pipeline), then the descriptor sets (which reference
the already-built top level AS handle), commands last, and prepared becomes
true only in the final state. -/
theorem prepare_dependency_order (blasAddr tlasHandle : Nat) :
    runPrepare blasAddr tlasHandle =
      ⟨some blasAddr, some tlasHandle, some blasAddr, some 6, some 6,
       some tlasHandle, true, true, true⟩ ∧
    (prepareStates blasAddr tlasHandle).dropLast.all (fun s => !s.prepared) = true ∧
    (createRayTracingPipelineStagesGroups "").2.length = 6 :=
  ⟨rfl, rfl, rfl⟩

/-- C7: createRayTracingPipeline loads exactly six shader binaries by fixed
filename convention under the raytracingcallable shader directory, in the
order raygen.rgen.spv, miss.rmiss.spv, closesthit.rchit.spv,
callable1.rcall.spv, callable2.rcall.spv, callable3.rcall.spv. -/
theorem pipeline_shader_file_names (base : String) :
    (createRayTracingPipelineStagesGroups base).1.map ShaderStage.fileName =
      [ base ++ "raytracingcallable/raygen.rgen.spv",
        base ++ "raytracingcallable/miss.rmiss.spv",
        base ++ "raytracingcallable/closesthit.rchit.spv",
        base ++ "raytracingcallable/callable1.rcall.spv",
        base ++ "raytracingcallable/callable2.rcall.spv",
        base ++ "raytracingcallable/callable3.rcall.spv" ] ∧
    (createRayTracingPipelineStagesGroups base).1.length = 6 := by
  rw [stagesGroups_eval]
  refine ⟨?_, rfl⟩
  simp only [List.map, String.append_assoc]
  rfl

/-- C9: every bottom-level transform matrix is the identity rotation with x
translation 3 i minus 3 and zero y and z translation, so the three triangle
geometries sit at x = -3, 0 and 3. -/
theorem blas_transform_translations :
    ((List.range objectCount).all fun i =>
      match transformMatrices[i]? with
      | some m =>
          isIdentityRotation m && m.m13 == 0 && m.m23 == 0 &&
            m.m03 == ((i : Int) * 3 - 3)
      | none => false) = true ∧
    transformMatrices.map TransformMatrix.m03 = [-3, 0, 3] := by
  constructor
  · decide
  · decide

/-- C10: the uniform data and the mapped per-frame uniform buffer are
rewritten exactly when the application is not paused or the camera was
updated; when paused holds and camera.updated is false, draw leaves both
unchanged. -/
theorem uniforms_updated_only_when_active (α : Type) (invMatrices : α)
    (s : UniformBufferState α) (u : Bool) :
    updateUniformBuffers true false invMatrices s = s ∧
    updateUniformBuffers false u invMatrices s = ⟨invMatrices, invMatrices⟩ ∧
    updateUniformBuffers true true invMatrices s = ⟨invMatrices, invMatrices⟩ := by
  refine ⟨rfl, ?_, rfl⟩
  cases u <;> rfl

/-- C3: createShaderBindingTables copies, in the fixed group order, the
bytes of the queried handle storage: handleSize bytes from offset 0 into
the raygen table, from offset handleSizeAligned into the miss table, from
offset handleSizeAligned * 2 into the hit table, and handleSize * 3 bytes
from offset handleSizeAligned * 3 into the callable table, where
handleSizeAligned is handleSize rounded up to the handle alignment (the
least multiple of the alignment that is at least handleSize). -/
theorem shader_binding_table_copy_layout (handleSize alignment : Nat)
    (storage : List Nat) (j : Nat) (ha : 0 < alignment) :
    (j < handleSize →
      ((copyShaderGroupHandles handleSize alignment storage).raygen)[j]? =
        storage[j]? ∧
      ((copyShaderGroupHandles handleSize alignment storage).miss)[j]? =
        storage[alignedSize handleSize alignment + j]? ∧
      ((copyShaderGroupHandles handleSize alignment storage).hit)[j]? =
        storage[alignedSize handleSize alignment * 2 + j]?) ∧
    (j < handleSize * 3 →
      ((copyShaderGroupHandles handleSize alignment storage).callable)[j]? =
        storage[alignedSize handleSize alignment * 3 + j]?) ∧
    handleSize ≤ alignedSize handleSize alignment ∧
    alignedSize handleSize alignment < handleSize + alignment ∧
    alignedSize handleSize alignment % alignment = 0 := by
  refine ⟨?_, ?_, le_alignedSize _ _ ha, alignedSize_lt _ _ ha, alignedSize_mod _ _⟩
  · intro hj
    refine ⟨?_, ?_, ?_⟩
    · show ((storage.take handleSize))[j]? = storage[j]?
      exact List.getElem?_take_of_lt hj
    · show (((storage.drop (alignedSize handleSize alignment)).take handleSize))[j]? = _
      rw [List.getElem?_take_of_lt hj, List.getElem?_drop]
    · show (((storage.drop (alignedSize handleSize alignment * 2)).take handleSize))[j]? = _
      rw [List.getElem?_take_of_lt hj, List.getElem?_drop]
  · intro hj
    show (((storage.drop (alignedSize handleSize alignment * 3)).take (handleSize * 3)))[j]? = _
    rw [List.getElem?_take_of_lt hj, List.getElem?_drop]

/-- Witness for C3 at handleSize 2, alignment 4, storage 0..19, j 1. -/
theorem shader_binding_table_copy_layout_witness :
    (0 < 4 ∧ 1 < 2 ∧ 1 < 2 * 3) ∧
    ((copyShaderGroupHandles 2 4 (List.range 20)).miss)[1]? =
      (List.range 20)[alignedSize 2 4 + 1]? ∧
    ((copyShaderGroupHandles 2 4 (List.range 20)).callable)[1]? =
      (List.range 20)[alignedSize 2 4 * 3 + 1]? :=
  ⟨⟨by decide, by decide, by decide⟩,
   ((shader_binding_table_copy_layout 2 4 (List.range 20) 1 (by decide)).1
      (by decide)).2.1,
   (shader_binding_table_copy_layout 2 4 (List.range 20) 1 (by decide)).2.1
      (by decide)⟩

/-- C8: taking the addresses of the build-range entries at the fixed
indices 0, 1 and 2 is in bounds exactly when there are at least 3 entries
(the loop creates objectCount of them), and the callable-table copy of
handleSize * 3 bytes fits the table sized for objectCount entries because
objectCount equals 3. -/
theorem fixed_indices_in_bounds_iff (n handleSize alignment : Nat)
    (ha : 0 < alignment) :
    ((fixedRangePointerIndices.all fun j =>
        j < (accelerationStructureBuildRangeInfos n).length) = true ↔ 3 ≤ n) ∧
    handleSize * 3 ≤ shaderBindingTableSize handleSize alignment objectCount ∧
    objectCount = 3 := by
  refine ⟨?_, ?_, rfl⟩
  · simp only [fixedRangePointerIndices, accelerationStructureBuildRangeInfos,
      List.length_map, List.length_range, List.all_cons, List.all_nil,
      Bool.and_eq_true, decide_eq_true_eq, and_true]
    omega
  · have h := le_alignedSize handleSize alignment ha
    show handleSize * 3 ≤ 3 * alignedSize handleSize alignment
    omega

/-- Witness for C8 at n 3, handleSize 32, alignment 64. -/
theorem fixed_indices_in_bounds_iff_witness :
    0 < 64 ∧
    (((fixedRangePointerIndices.all fun j =>
        j < (accelerationStructureBuildRangeInfos 3).length) = true ↔ 3 ≤ 3) ∧
     32 * 3 ≤ shaderBindingTableSize 32 64 objectCount ∧
     objectCount = 3) :=
  ⟨by decide, fixed_indices_in_bounds_iff 3 32 64 (by decide)⟩

theorem blas_all_checkedExceptKnown (host : Bool) :
    (createBottomLevelAccelerationStructureEvents host).all checkedExceptKnown = true := by
  cases host <;> decide

theorem tlas_all_checkedExceptKnown (host : Bool) :
    (createTopLevelAccelerationStructureEvents host).all checkedExceptKnown = true := by
  cases host <;> decide

theorem sbt_all_checkedExceptKnown :
    createShaderBindingTablesEvents.all checkedExceptKnown = true := by decide

theorem pipeline_all_checkedExceptKnown :
    createRayTracingPipelineEvents.all checkedExceptKnown = true := by decide

theorem loop_descriptorBlock_all (n : Nat) :
    (loopCalls n [checkedCall "vkAllocateDescriptorSets",
      voidCall "vkUpdateDescriptorSets"]).all checkedExceptKnown = true :=
  all_loopCalls _ _ (by decide) n

theorem loop_frameSetupBlock_all (n : Nat) :
    (loopCalls n [voidCall "createFrameObjects", voidCall "createStorageImage",
      checkedCall "vulkanDevice.createBuffer",
      checkedCall "frame.ubo.map"]).all checkedExceptKnown = true :=
  all_loopCalls _ _ (by decide) n

theorem loop_resizeBlock_all (n : Nat) :
    (loopCalls n resizeBlock).all checkedExceptKnown = true :=
  all_loopCalls _ _ (by decide) n

theorem descriptorSets_all_checkedExceptKnown (n : Nat) :
    (createDescriptorSetsEvents n).all checkedExceptKnown = true := by
  simp only [createDescriptorSetsEvents, List.all_cons, loop_descriptorBlock_all n]
  decide

theorem resizePart_all_checkedExceptKnown (r : Bool) (n : Nat) :
    (drawResizePart r n).all checkedExceptKnown = true := by
  cases r
  · rfl
  · show (uncheckedResultCall "vkDeviceWaitIdle" ::
      loopCalls n resizeBlock).all checkedExceptKnown = true
    simp only [List.all_cons, loop_resizeBlock_all n]
    decide

theorem uniformPart_all_checkedExceptKnown (p u : Bool) :
    (drawUniformPart p u).all checkedExceptKnown = true := by
  cases p <;> cases u <;> decide

theorem draw_all_checkedExceptKnown (r p u : Bool) (n : Nat) :
    (drawEvents r p u n).all checkedExceptKnown = true := by
  simp only [drawEvents, List.all_append, resizePart_all_checkedExceptKnown r n,
    uniformPart_all_checkedExceptKnown p u, Bool.true_and, Bool.and_true]
  decide

theorem draw_filter_callee (s : String)
    (h0 : ("vkDeviceWaitIdle" == s) = false)
    (h1 : ("createStorageImage" == s) = false)
    (h2 : ("vkUpdateDescriptorSets" == s) = false)
    (h3 : ("uniformData update" == s) = false)
    (h4 : ("memcpy uniformData to frame.ubo.mapped" == s) = false)
    (r p u : Bool) (n : Nat) :
    (drawEvents r p u n).filter (fun e => e.callee == s) =
      drawPrePart.filter (fun e => e.callee == s) ++
        drawCommandPart.filter (fun e => e.callee == s) := by
  have ha : (drawResizePart r n).filter (fun e => e.callee == s) = [] :=
    filter_drawResizePart_nil _ (by simpa [uncheckedResultCall] using h0)
      (by simp [resizeBlock, List.filter_cons, voidCall, h1, h2]) r n
  have hb : (drawUniformPart p u).filter (fun e => e.callee == s) = [] :=
    filter_drawUniformPart_nil _ (by simpa [hostOp] using h3)
      (by simpa [hostOp] using h4) p u
  simp only [drawEvents, List.filter_append, ha, hb, List.nil_append,
    List.append_nil]

/-- C1 counterexample: the claim that every VkResult-returning call site
aborts on a non-success code is false: in the host-build branch of
createBottomLevelAccelerationStructure the VkResult of
vkBuildAccelerationStructuresKHR is discarded, and in the resize branch of
draw the VkResult of vkDeviceWaitIdle is discarded. -/
theorem hostBuild_result_unchecked :
    (createBottomLevelAccelerationStructureEvents true).all resultChecked = false ∧
    (drawEvents true false false 1).all resultChecked = false := by
  constructor
  · decide
  · decide

/-- C1 amended: every VkResult-returning call site in
createBottomLevelAccelerationStructure, createTopLevelAccelerationStructure,
createShaderBindingTables, createDescriptorSets, createRayTracingPipeline,
prepare and draw is wrapped in the fail-fast VK_CHECK_RESULT (and
VK_CHECK_RESULT aborts on any non-success result with no retry), except for
vkBuildAccelerationStructuresKHR in the host-build branches of the two
acceleration-structure builders and vkDeviceWaitIdle in the resize branch
of draw, whose results are discarded. -/
theorem vk_check_result_coverage :
    (∀ host, (createBottomLevelAccelerationStructureEvents host).all
        checkedExceptKnown = true) ∧
    (∀ host, (createTopLevelAccelerationStructureEvents host).all
        checkedExceptKnown = true) ∧
    createShaderBindingTablesEvents.all checkedExceptKnown = true ∧
    createRayTracingPipelineEvents.all checkedExceptKnown = true ∧
    (∀ n, (createDescriptorSetsEvents n).all checkedExceptKnown = true) ∧
    (∀ host n, (prepareEvents host n).all checkedExceptKnown = true) ∧
    (∀ r p u n, (drawEvents r p u n).all checkedExceptKnown = true) ∧
    (∀ res : Int, res ≠ 0 → vkCheckResult res = none) := by
  refine ⟨blas_all_checkedExceptKnown, tlas_all_checkedExceptKnown,
    sbt_all_checkedExceptKnown, pipeline_all_checkedExceptKnown,
    descriptorSets_all_checkedExceptKnown, ?_,
    draw_all_checkedExceptKnown, ?_⟩
  · intro host n
    simp only [prepareEvents, List.all_cons, List.all_append,
      loop_frameSetupBlock_all n,
      blas_all_checkedExceptKnown host, tlas_all_checkedExceptKnown host,
      sbt_all_checkedExceptKnown, pipeline_all_checkedExceptKnown,
      descriptorSets_all_checkedExceptKnown n, Bool.true_and, Bool.and_true]
    decide
  · intro res hres
    simp [vkCheckResult, hres]

/-- Witness for C1 amended: VK_CHECK_RESULT aborts on result 1. -/
theorem vk_check_result_coverage_witness : vkCheckResult 1 = none :=
  vk_check_result_coverage.2.2.2.2.2.2.2 1 (by decide)

/-- C4: in every frame and under every runtime condition, draw waits on
exactly one fence, the current frame render-complete fence with fence count
one, resets exactly that fence, begins and ends exactly one command buffer,
and submits exactly one command buffer to the queue. -/
theorem draw_single_fence_single_submit (r p u : Bool) (n : Nat) :
    (drawEvents r p u n).filter (fun e => e.callee == "vkWaitForFences") =
      [fenceWaitEvent] ∧
    (drawEvents r p u n).filter (fun e => e.callee == "vkResetFences") =
      [fenceResetEvent] ∧
    (drawEvents r p u n).filter (fun e => e.callee == "vkQueueSubmit") =
      [⟨"vkQueueSubmit", "currentFrame.commandBuffer", true, true, true, 1⟩] ∧
    (drawEvents r p u n).filter (fun e => e.callee == "vkBeginCommandBuffer") =
      [checkedCall "vkBeginCommandBuffer"] ∧
    (drawEvents r p u n).filter (fun e => e.callee == "vkEndCommandBuffer") =
      [checkedCall "vkEndCommandBuffer"] ∧
    fenceWaitEvent.target = "currentFrame.renderCompleteFence" ∧
    fenceWaitEvent.arg = 1 := by
  have hw := draw_filter_callee "vkWaitForFences"
    (by decide) (by decide) (by decide) (by decide) (by decide) r p u n
  have hr := draw_filter_callee "vkResetFences"
    (by decide) (by decide) (by decide) (by decide) (by decide) r p u n
  have hs := draw_filter_callee "vkQueueSubmit"
    (by decide) (by decide) (by decide) (by decide) (by decide) r p u n
  have hb := draw_filter_callee "vkBeginCommandBuffer"
    (by decide) (by decide) (by decide) (by decide) (by decide) r p u n
  have he := draw_filter_callee "vkEndCommandBuffer"
    (by decide) (by decide) (by decide) (by decide) (by decide) r p u n
  refine ⟨?_, ?_, ?_, ?_, ?_, rfl, rfl⟩
  · rw [hw]; decide
  · rw [hr]; decide
  · rw [hs]; decide
  · rw [hb]; decide
  · rw [he]; decide

/-- C5 counterexample: the call sequence is not the same under every
runtime condition: the bottom level acceleration structure build issues
different call sequences depending on whether the implementation supports
host acceleration-structure builds. -/
theorem blas_call_sequence_depends_on_host_flag :
    createBottomLevelAccelerationStructureEvents true ≠
      createBottomLevelAccelerationStructureEvents false := by decide

/-- C5 amended: each component is a straight-line sequence of calls with no
retries and no caching, fixed once the branch conditions the code actually
tests are fixed: the acceleration-structure builders branch on host-build
support but issue exactly one build call either way, draw branches on the
resized flag, and apart from that the graphics-API call sequence of draw is
the same regardless of pause state and camera updates. -/
theorem call_sequences_fixed_up_to_branches :
    (∀ r p u p2 u2 n,
      (drawEvents r p u n).filter Event.api =
        (drawEvents r p2 u2 n).filter Event.api) ∧
    (∀ host, ((createBottomLevelAccelerationStructureEvents host).filter
        (fun e => e.callee == "vkBuildAccelerationStructuresKHR" ||
          e.callee == "vkCmdBuildAccelerationStructuresKHR")).length = 1) ∧
    (∀ host, ((createTopLevelAccelerationStructureEvents host).filter
        (fun e => e.callee == "vkBuildAccelerationStructuresKHR" ||
          e.callee == "vkCmdBuildAccelerationStructuresKHR")).length = 1) := by
  refine ⟨?_, ?_, ?_⟩
  · intro r p u p2 u2 n
    simp only [drawEvents, List.filter_append,
      filter_drawUniformPart_nil Event.api (by decide) (by decide)]
  · intro host; cases host <;> decide
  · intro host; cases host <;> decide

end RaytracingCallable
